import Mathlib

/-!
Verification of the linkedin-automation repository.

This file gives a shallow embedding, in Lean 4, of the pure computational
parts of the repository (Python), and proves properties of them:

* `automation/scoring.py` — `compute_popularity_score`
* `automation/sheets.py` — `SheetsClient` (column letters, row updates, appends)
* `automation/enhanced_sheets.py` — `EnhancedSheetsClient` (canonical header,
  `_profile_to_row`, `add_profile`)
* `automation/enhanced_gemini_client.py` — post-processing of
  `generate_inmail_note`
* `automation/linkedin.py` — the connection-status classification performed by
  `search_people` on one result container
* `automation/orchestrator.py` — startup validation and the first
  write-all-search-results pass of `run`
* `ui_integration.py` — the exception containment of `run_automation`

Python strings are embedded as Lean `String`/`List Char`, Python floats as `ℚ`,
Python `None`-able values as `Option`, worksheet state as lists of rows, and
raising code as `Except`-shaped results.
-/

/-! ### String helpers mirroring Python primitives -/

/-- Does the list start with the given pattern? (`needle` may be empty.) -/
def startsW : List Char → List Char → Bool
  | _, [] => true
  | [], _ :: _ => false
  | a :: as, b :: bs => a == b && startsW as bs

/-- Python's `needle in hay` substring test, on character lists. -/
def containsL : List Char → List Char → Bool
  | [], needle => needle == []
  | h :: t, needle => startsW (h :: t) needle || containsL t needle

/-- Python's `needle in hay` substring test, on strings. -/
def containsStr (hay needle : String) : Bool :=
  containsL hay.data needle.data

/-- Python's `str.lower()` (ASCII behaviour): lower-case each character. -/
def pyLower (s : String) : String :=
  String.mk (s.data.map Char.toLower)

/-- Python's `str.strip()` on character lists. -/
def pyStripL (s : List Char) : List Char :=
  ((s.dropWhile Char.isWhitespace).reverse.dropWhile Char.isWhitespace).reverse

/-- Python's `str.strip()` on strings. -/
def pyStrip (s : String) : String :=
  String.mk (pyStripL s.data)

/-- Truthiness of an optional string, as Python evaluates it: `None` and the
empty string are falsy. -/
def optTruthy (o : Option String) : Bool :=
  match o with
  | none => false
  | some s => s != ""

/-! ### Python `round(x, 2)` on rationals (round-half-to-even) -/

/-- Round to the nearest integer, ties to even — Python's `round` convention. -/
def bankersRound (x : ℚ) : ℤ :=
  let n : ℤ := ⌊x⌋
  let r : ℚ := x - n
  if r < 1 / 2 then n
  else if 1 / 2 < r then n + 1
  else if n % 2 = 0 then n else n + 1

/-- Python's `round(x, 2)`. -/
def round2 (x : ℚ) : ℚ :=
  (bankersRound (x * 100) : ℚ) / 100

/-! ### `automation/linkedin.py` — data model -/

/-- The minimal scraped record (`Profile` dataclass in `linkedin.py`).
Follower counts are parsed from digit runs, hence natural numbers. -/
structure Profile where
  name : String
  headline : String
  location : Option String
  profile_url : String
  about : Option String
  experiences : List String
  skills : List String
  followers_count : Option ℕ
deriving Repr, DecidableEq

/-- One row of a search listing (`SearchResult` dataclass in `linkedin.py`). -/
structure SearchResult where
  name : String
  headline : Option String
  location : Option String
  profile_url : String
  connection_status : String
deriving Repr, DecidableEq

/-! ### `automation/scoring.py` — `compute_popularity_score` -/

/-- Follower contribution as the code computes it: the `if profile.followers_count:`
truthiness guard means a present-but-zero count contributes nothing. -/
def follower_contribution (o : Option ℕ) : ℚ :=
  match o with
  | none => 0
  | some f => if f = 0 then 0 else min 30 ((f : ℚ) / 1000 * 5)

/-- The `text_blob` of `compute_popularity_score`:
`" ".join(filter(None, [profile.headline, profile.about or ""]))`. -/
def score_text_blob (p : Profile) : String :=
  String.intercalate " " (([p.headline, p.about.getD ""]).filter (fun s => s ≠ ""))

/-- Seniority-keyword contribution: `+10.0` per keyword `kw` with
`kw.lower() in text_blob.lower()`. -/
def keyword_contribution (p : Profile) (seniority_keywords : List String) : ℚ :=
  10 * ((seniority_keywords.filter
    (fun kw => containsStr (pyLower (score_text_blob p)) (pyLower kw))).length : ℚ)

/-- Skill-density contribution: `min(20.0, len(profile.skills) * 1.0)`. -/
def skills_contribution (p : Profile) : ℚ :=
  min 20 ((p.skills.length : ℚ) * 1)

/-- Experience-count contribution: `min(20.0, len(profile.experiences) * 1.5)`. -/
def experience_contribution (p : Profile) : ℚ :=
  min 20 ((p.experiences.length : ℚ) * 1.5)

/-- `compute_popularity_score` from `automation/scoring.py`: sum the four
contributions, clamp at 100.0, round to two decimals. -/
def compute_popularity_score (profile : Profile) (seniority_keywords : List String) : ℚ :=
  round2 (min
    (follower_contribution profile.followers_count
      + keyword_contribution profile seniority_keywords
      + skills_contribution profile
      + experience_contribution profile) 100)

/-- A profile with every field empty or absent. -/
def emptyProfile : Profile :=
  { name := ""
    headline := ""
    location := none
    profile_url := ""
    about := none
    experiences := []
    skills := []
    followers_count := none }

/-! ### `automation/linkedin.py` — `search_people` status classification

`search_people` (lines 216–273) inspects, for one result container, the first
`button` in the container.  We embed the button as its two observable
attributes and the classification as a function returning `none` when the
candidate is skipped and `some status` when it is added. -/

/-- The status button of one search-result container: its text content and its
accessible label, each possibly absent. -/
structure StatusButton where
  text : Option String
  ariaLabel : Option String
deriving Repr, DecidableEq

/-- The effective button text: `if not button_text or button_text.strip() == ""`
the aria-label is substituted, but only when the label itself is truthy. -/
def effective_button_text (b : StatusButton) : Option String :=
  if !optTruthy b.text || pyStrip (b.text.getD "") = "" then
    (if optTruthy b.ariaLabel then b.ariaLabel else b.text)
  else b.text

/-- Classification of the effective button text (`linkedin.py` lines 230–255):
`none` means the candidate is skipped, `some s` that it is added with
`connection_status = s`.  A falsy effective text falls through to the
"no button text, adding anyway" branch. -/
def classify_effective_text (t0 : Option String) : Option String :=
  match t0 with
  | some s =>
    if s ≠ "" then
      let t := pyLower (pyStrip s)
      if containsStr t "message" then none
      else if containsStr t "connect" || containsStr t "follow" || containsStr t "invite" then
        some "not_connected"
      else some "not_connected"
    else some "not_connected"
  | none => some "not_connected"

/-- The connection-status classification of one result container, given its
status button (or `none` when no button is present).  Result `none` means the
candidate is skipped; `some s` means it is added with `connection_status = s`. -/
def classify_container_status (button : Option StatusButton) : Option String :=
  match button with
  | none => some "unknown"
  | some b => classify_effective_text (effective_button_text b)

/-! ### `_col_num_to_letter` (identical in `sheets.py` and `enhanced_sheets.py`) -/

/-- The loop of `_col_num_to_letter`, with a fuel argument for structural
recursion: each iteration decrements, prepends `chr(65 + col_num % 26)` and
divides by 26.  The fuel never runs out when it starts at the argument itself
(`colLetterGo_eq` below). -/
def colLetterGo : ℕ → ℕ → List Char
  | _, 0 => []
  | 0, _ + 1 => []
  | fuel + 1, n + 1 => colLetterGo fuel (n / 26) ++ [Char.ofNat (65 + n % 26)]

/-- The loop of `_col_num_to_letter`. -/
def colLetterAux (n : ℕ) : List Char :=
  colLetterGo n n

/-- `_col_num_to_letter` from `sheets.py` lines 132–139 (the same code appears
in `enhanced_sheets.py` lines 354–361). -/
def col_num_to_letter (col_num : ℕ) : String :=
  String.mk (colLetterAux col_num)

/-! ### `automation/enhanced_sheets.py` — data model and `add_profile` -/

/-- A spreadsheet cell value: the rows written by this repository hold strings
and numbers. -/
inductive Cell where
  | s (v : String)
  | n (v : ℚ)
deriving Repr, DecidableEq

/-- One experience entry of a `DetailedProfile` (a Python dict accessed through
`.get(key, "")`; an absent key behaves as the empty string). -/
structure ExpEntry where
  title : String
  company : String
  duration : String
deriving Repr, DecidableEq

/-- One education entry of a `DetailedProfile`. -/
structure EduEntry where
  school : String
  degree : String
deriving Repr, DecidableEq

/-- The rich profile record (`DetailedProfile` dataclass in
`profile_extractor.py`).  Count fields are parsed from digit runs, hence
natural numbers; `social_links` is an association list standing for the Python
dict. -/
structure DetailedProfile where
  name : String
  headline : String
  location : Option String
  profile_url : String
  about : Option String
  connection_status : String
  experiences : List ExpEntry
  skills : List String
  achievements : List String
  education : List EduEntry
  certifications : List String
  email : Option String
  website : Option String
  blogs : List String
  social_links : List (String × String)
  followers_count : Option ℕ
  connections_count : Option ℕ
  mutual_connections : List String
  recent_posts : List String
  interests : List String
  inmail_note : Option String
  ice_breakers : List String
deriving Repr, DecidableEq

/-- Python dict `.get(key, "")` on an association list. -/
def dictGet (d : List (String × String)) (k : String) : String :=
  match d.lookup k with
  | some v => v
  | none => ""

/-- `EnhancedSheetsClient.COLUMNS` (`enhanced_sheets.py` lines 27–81),
transcribed in source order. -/
def COLUMNS : List String :=
  [ "timestamp", "name", "headline", "location", "profile_url",
    "about", "ai_summary", "popularity_score",
    "current_position", "current_company", "total_experience_years",
    "top_skills", "all_skills_count", "achievements",
    "education", "certifications",
    "email", "website", "blogs", "github", "twitter",
    "followers_count", "connections_count", "mutual_connections",
    "recent_post_snippet", "interests",
    "inmail_note", "ice_breaker_1", "ice_breaker_2", "ice_breaker_3",
    "connect_sent", "connect_sent_date", "connection_accepted",
    "message_sent", "response_received", "notes" ]

/-- `str(int(s))` for a digit-run string: parse and re-render. -/
def natOfDigits (s : String) : ℕ :=
  s.data.foldl (fun n c => n * 10 + (c.toNat - 48)) 0

/-- The `total_exp_years` parse inside `_profile_to_row`: if `"yr"` occurs in
the duration, take the first whitespace token made of digits. -/
def total_exp_years_of (duration : String) : String :=
  if containsStr duration "yr" then
    match ((duration.split Char.isWhitespace).filter
        (fun s => s ≠ "" && s.data.all Char.isDigit)) with
    | [] => ""
    | y :: _ => toString (natOfDigits y)
  else ""

/-- `_profile_to_row` (`enhanced_sheets.py` lines 201–289): render one full row
from a `DetailedProfile`.  `now` stands for `datetime.now().strftime(...)`. -/
def profile_to_row (profile : DetailedProfile) (now : String)
    (ai_summary : String) (popularity_score : ℚ) : List Cell :=
  let current_position :=
    match profile.experiences with
    | [] => ""
    | e :: _ => e.title
  let current_company :=
    match profile.experiences with
    | [] => ""
    | e :: _ => e.company
  let total_exp_years :=
    match profile.experiences with
    | [] => ""
    | e :: _ => total_exp_years_of e.duration
  let education_text :=
    match profile.education with
    | [] => ""
    | e :: _ => e.degree ++ " - " ++ e.school
  let skills_text :=
    if profile.skills ≠ [] then String.intercalate ", " (profile.skills.take 10) else ""
  let achievements_text :=
    if profile.achievements ≠ [] then String.intercalate " | " (profile.achievements.take 3) else ""
  let certifications_text :=
    if profile.certifications ≠ [] then String.intercalate " | " (profile.certifications.take 3) else ""
  let mutual_text :=
    if profile.mutual_connections ≠ [] then
      String.intercalate ", " (profile.mutual_connections.take 5) else ""
  let interests_text :=
    if profile.interests ≠ [] then String.intercalate " | " (profile.interests.take 5) else ""
  [ Cell.s now,
    Cell.s profile.name,
    Cell.s profile.headline,
    Cell.s (profile.location.getD ""),
    Cell.s profile.profile_url,
    Cell.s ((profile.about.getD "").take 500),
    Cell.s ai_summary,
    Cell.n popularity_score,
    Cell.s current_position,
    Cell.s current_company,
    Cell.s total_exp_years,
    Cell.s skills_text,
    Cell.n (profile.skills.length : ℚ),
    Cell.s achievements_text,
    Cell.s education_text,
    Cell.s certifications_text,
    Cell.s (profile.email.getD ""),
    Cell.s (profile.website.getD ""),
    Cell.s (if profile.blogs ≠ [] then String.intercalate ", " profile.blogs else ""),
    Cell.s (dictGet profile.social_links "github"),
    Cell.s (dictGet profile.social_links "twitter"),
    Cell.n ((profile.followers_count.getD 0 : ℕ) : ℚ),
    Cell.n ((profile.connections_count.getD 0 : ℕ) : ℚ),
    Cell.s mutual_text,
    Cell.s (match profile.recent_posts with | [] => "" | r :: _ => r.take 200),
    Cell.s interests_text,
    Cell.s (profile.inmail_note.getD ""),
    Cell.s (profile.ice_breakers.getD 0 ""),
    Cell.s (profile.ice_breakers.getD 1 ""),
    Cell.s (profile.ice_breakers.getD 2 ""),
    Cell.s "", Cell.s "", Cell.s "", Cell.s "", Cell.s "", Cell.s "" ]

/-- `EnhancedSheetsClient.add_profile` (`enhanced_sheets.py` lines 188–199):
append the rendered row and return `len(self.worksheet.get_all_values())`.
The worksheet is its list of rows (header included). -/
def add_profile (ws : List (List Cell)) (profile : DetailedProfile) (now : String)
    (ai_summary : String) (popularity_score : ℚ) : List (List Cell) × ℕ :=
  let ws2 := ws ++ [profile_to_row profile now ai_summary popularity_score]
  (ws2, ws2.length)

/-- A sample rich profile (shaped like the one in
`tests/test_duplicate_prevention.py`) used to evaluate `add_profile`. -/
def sampleDetailedProfile : DetailedProfile :=
  { name := "First Version"
    headline := "Test Headline"
    location := some "Test Location"
    profile_url := "https://www.linkedin.com/in/test-user"
    about := some "Test about section"
    connection_status := "not_connected"
    experiences := [{ title := "Test Position", company := "Test Company", duration := "2 yrs" }]
    skills := ["Python", "JavaScript"]
    achievements := ["Achievement1"]
    education := [{ school := "Test University", degree := "BS" }]
    certifications := ["Cert1"]
    email := some "test@example.com"
    website := some "https://example.com"
    blogs := ["https://blog.example.com"]
    social_links := [("github", "https://github.com/test")]
    followers_count := some 100
    connections_count := some 500
    mutual_connections := ["Mutual1"]
    recent_posts := ["Recent post content"]
    interests := ["Tech"]
    inmail_note := some "Test InMail"
    ice_breakers := ["Question 1", "Question 2", "Question 3"] }

/-! ### `automation/sheets.py` — `SheetsClient` operations

The worksheet is its list of rows (header row first).  The A1 translation
performed by `update_row` (`_col_num_to_letter(col_idx) + str(row_num)`) is the
bijection `col_num_to_letter` proved injective below; the external spreadsheet
service resolves that address back to the 1-based `(row_num, col_idx)` pair,
which is how the update is applied here. -/

/-- Set the 1-based `(row, col)` cell; out-of-range indices leave the sheet
unchanged (`List.set` semantics). -/
def setCell (ws : List (List Cell)) (row col : ℕ) (v : Cell) : List (List Cell) :=
  match ws.get? (row - 1) with
  | none => ws
  | some r => ws.set (row - 1) (r.set (col - 1) v)

/-- Position of a column name in the header row (cells compared as strings),
mirroring `headers.index(col_name)` guarded by `col_name in headers`. -/
def headerIdx (header : List Cell) (name : String) : Option ℕ :=
  header.findIdx? (fun c => c = Cell.s name)

/-- `SheetsClient.update_row` (`sheets.py` lines 103–130): resolve each column
name against the live header row, skip names not present, and apply all
resulting cell updates. -/
def update_row (ws : List (List Cell)) (row_num : ℕ)
    (column_updates : List (String × Cell)) : List (List Cell) :=
  let headers := ws.headD []
  column_updates.foldl
    (fun acc cu =>
      match headerIdx headers cu.1 with
      | some i => setCell acc row_num (i + 1) cu.2
      | none => acc)
    ws

/-- `SheetsClient.update_cell` (`sheets.py` lines 141–149). -/
def update_cell (ws : List (List Cell)) (row_num : ℕ) (col_name : String) (v : Cell) :
    List (List Cell) :=
  update_row ws row_num [(col_name, v)]

/-- `SheetsClient.append_lead` (`sheets.py` lines 96–101): append the row and
return `len(self.worksheet.get_all_values())`. -/
def append_lead (ws : List (List Cell)) (row : List Cell) : List (List Cell) × ℕ :=
  (ws ++ [row], (ws ++ [row]).length)

/-- Modelled from the spec: `SheetsClient.find_row_by_url` is called by the
orchestrator (`orchestrator.py` line 87) and exercised by
`tests/test_sheets_enhanced.py`, but its definition is absent from
`automation/sheets.py`.  Following the spec's "looking up an existing row by
URL" against the sheet's URL column, it returns the 1-based number of the
first data row whose "Profile URL" cell equals the url, and `none` when the
column or the url is absent. -/
def find_row_by_url (ws : List (List Cell)) (url : String) : Option ℕ :=
  match ws with
  | [] => none
  | header :: rows =>
    match headerIdx header "Profile URL" with
    | none => none
    | some c =>
      match rows.findIdx? (fun r => r.getD c (Cell.s "") = Cell.s url) with
      | none => none
      | some i => some (i + 2)

/-! ### `automation/orchestrator.py` — the first pass of `run` -/

/-- The position-from-headline parse of `run` (`orchestrator.py` lines 96–104):
split on `" at "`, else `" | "`, else the first comma segment, else empty. -/
def parse_position (headline : Option String) : String :=
  match headline with
  | none => ""
  | some h =>
    if h = "" then ""
    else if containsStr h " at " then (h.splitOn " at ").headD ""
    else if containsStr h " | " then (h.splitOn " | ").headD ""
    else if containsStr h "," then (h.splitOn ",").headD ""
    else ""

/-- The `initial_row_data` literal of `run` (`orchestrator.py` lines 106–123),
with `now` standing for the two `datetime.now().strftime(...)` calls. -/
def initial_row_data (r : SearchResult) (now : String) : List Cell :=
  [ Cell.s (if r.name = "" then "Unknown" else r.name),
    Cell.s (parse_position r.headline),
    Cell.s (r.headline.getD ""),
    Cell.s (r.location.getD ""),
    Cell.s r.profile_url,
    Cell.n 0,
    Cell.s "",
    Cell.s "",
    Cell.s "no",
    Cell.s r.connection_status,
    Cell.s now,
    Cell.s now,
    Cell.s "", Cell.s "", Cell.s "", Cell.s "" ]

/-- One iteration of the first pass of `run` (`orchestrator.py` lines 85–129):
look up the row by URL; if found, stamp "Last Updated", else append
`initial_row_data`; record the row number in `row_mapping`. -/
def first_pass_step (now : String) (st : List (List Cell) × List (String × ℕ))
    (r : SearchResult) : List (List Cell) × List (String × ℕ) :=
  match find_row_by_url st.1 r.profile_url with
  | some row =>
    (update_cell st.1 row "Last Updated" (Cell.s now), st.2 ++ [(r.profile_url, row)])
  | none =>
    let (ws2, row_num) := append_lead st.1 (initial_row_data r now)
    (ws2, st.2 ++ [(r.profile_url, row_num)])

/-- The whole first pass of `run`: fold the step over the search results,
starting from the live sheet and an empty `row_mapping`. -/
def first_pass (ws : List (List Cell)) (results : List SearchResult) (now : String) :
    List (List Cell) × List (String × ℕ) :=
  results.foldl (first_pass_step now) (ws, [])

/-! ### `automation/enhanced_gemini_client.py` — InMail note post-processing -/

/-- The pure post-processing of `generate_inmail_note` (`enhanced_gemini_client.py`
lines 52–57) applied to the model's response text, on character lists:
`message = text.strip().replace("\n", " ")`. -/
def inmail_message (text : List Char) : List Char :=
  (pyStripL text).map (fun c => if c = '\n' then ' ' else c)

/-- The length guard of `generate_inmail_note`: truncate the processed message
to 297 characters plus `"..."` when it exceeds 300 characters. -/
def inmail_note_clip (text : List Char) : List Char :=
  if 300 < (inmail_message text).length then (inmail_message text).take 297 ++ ['.', '.', '.']
  else inmail_message text

/-! ### `automation/orchestrator.py` — startup validation of `run` -/

/-- The settings fields `run` reads before and during startup
(`automation/config.py`). -/
structure Settings where
  linkedin_email : String
  linkedin_password : String
  search_keywords : List String
  gsheet_name : Option String
  gsheet_id : Option String
deriving Repr, DecidableEq

/-- The externally visible startup steps of `run`, in program order. -/
inductive StartupEvent where
  | sheetsClient
  | geminiClient
  | browserSession
deriving Repr, DecidableEq

/-- The startup of `run` (`orchestrator.py` lines 26–61) as a trace: the events
emitted before the loop body, paired with the raised error message if startup
validation fails.  Validation (lines 31–34) precedes every client and browser
construction. -/
def run_startup (s : Settings) : List StartupEvent × Option String :=
  if s.linkedin_email = "" ∨ s.linkedin_password = "" then
    ([], some "Set LINKEDIN_EMAIL and LINKEDIN_PASSWORD environment variables.")
  else if s.search_keywords = [] then
    ([], some "Set SEARCH_KEYWORDS env var (comma-separated).")
  else
    ((if optTruthy s.gsheet_name || optTruthy s.gsheet_id then
        [StartupEvent.sheetsClient] else [])
      ++ [StartupEvent.geminiClient, StartupEvent.browserSession], none)

/-- `main` (`orchestrator.py` lines 228–229) runs `run`; an uncaught exception
terminates the interpreter with a non-zero exit code. -/
def main_exit_code (s : Settings) : ℕ :=
  match (run_startup s).2 with
  | some _ => 1
  | none => 0

/-! ### `ui_integration.py` — `run_automation` exception containment -/

/-- The observable state of `LinkedInAutomationIntegration`: the running flag
and the events delivered to the `log` and `progress` callbacks. -/
structure IntegState where
  is_running : Bool
  logs : List (String × String)
  progress : List (String × ℚ)
deriving Repr, DecidableEq

/-- `log_message`: deliver `(message, level)` to the log callback. -/
def log_message (st : IntegState) (message level : String) : IntegState :=
  { st with logs := st.logs ++ [(message, level)] }

/-- `update_progress`: deliver `(message, fraction)` to the progress callback. -/
def update_progress (st : IntegState) (message : String) (fraction : ℚ) : IntegState :=
  { st with progress := st.progress ++ [(message, fraction)] }

/-- `run_automation` (`ui_integration.py` lines 123–307).  The whole `try`
body — browser, search, per-profile work — is abstracted as `body`, which
returns the state it produced together with `some e` when it raised an
exception with message `e` (the `except Exception` case) and `none` when it
completed.  The function itself returns a plain state: no exception escapes
the modelled paths. -/
def run_automation (st : IntegState)
    (body : IntegState → IntegState × Option String) : IntegState :=
  if st.is_running then
    log_message st "Automation already running" "WARNING"
  else
    let st1 : IntegState := { st with is_running := true }
    let st2 := update_progress st1 "Starting LinkedIn automation..." 0
    let (stB, err) := body st2
    let st3 :=
      match err with
      | none => stB
      | some e =>
        update_progress (log_message stB ("Automation error: " ++ e) "ERROR")
          ("Error: " ++ e) 0
    { st3 with is_running := false }

/-- A concrete search result used to evaluate the first pass. -/
def demoSearchResult : SearchResult :=
  { name := "Jane Smith"
    headline := some "CTO at Acme"
    location := some "NYC"
    profile_url := "https://www.linkedin.com/in/janesmith"
    connection_status := "not_connected" }

/-- The 16-column Title-Case header the orchestrator's first pass writes
against (the shape used by `tests/test_sheets_enhanced.py`). -/
def basicHeader : List Cell :=
  [ Cell.s "Name", Cell.s "Position", Cell.s "Headline", Cell.s "Location",
    Cell.s "Profile URL", Cell.s "Popularity Score", Cell.s "Summary",
    Cell.s "Connection Note", Cell.s "Connect Sent", Cell.s "Connection Status",
    Cell.s "Date Added", Cell.s "Last Updated", Cell.s "About",
    Cell.s "Experience", Cell.s "Education", Cell.s "Skills" ]

/-! ## Theorems -/

/-! ### Column-letter conversion -/

theorem colLetterGo_eq : ∀ (f1 f2 n : ℕ), n ≤ f1 → n ≤ f2 → colLetterGo f1 n = colLetterGo f2 n := by
  intro f1
  induction f1 with
  | zero =>
    intro f2 n h1 _
    have hn : n = 0 := Nat.le_zero.mp h1
    subst hn
    cases f2 <;> rfl
  | succ f ih =>
    intro f2 n h1 h2
    cases n with
    | zero => cases f2 <;> rfl
    | succ m =>
      cases f2 with
      | zero => omega
      | succ f2' =>
        simp only [colLetterGo]
        congr 1
        exact ih f2' (m / 26)
          (le_trans (Nat.div_le_self m 26) (Nat.lt_succ_iff.mp h1))
          (le_trans (Nat.div_le_self m 26) (Nat.lt_succ_iff.mp h2))

theorem colLetterAux_zero : colLetterAux 0 = [] := rfl

theorem colLetterAux_succ (n : ℕ) :
    colLetterAux (n + 1) = colLetterAux (n / 26) ++ [Char.ofNat (65 + n % 26)] := by
  unfold colLetterAux
  simp only [colLetterGo]
  congr 1
  exact colLetterGo_eq n (n / 26) (n / 26) (Nat.div_le_self n 26) le_rfl

theorem append_singleton_inj {xs ys : List Char} {a b : Char}
    (h : xs ++ [a] = ys ++ [b]) : xs = ys ∧ a = b := by
  have hlen : xs.length = ys.length := by
    have := congrArg List.length h
    simpa using this
  obtain ⟨h1, h2⟩ := List.append_inj h hlen
  refine ⟨h1, ?_⟩
  injection h2

theorem colChar_inj : ∀ a, a < 26 → ∀ b, b < 26 →
    Char.ofNat (65 + a) = Char.ofNat (65 + b) → a = b := by decide

theorem colLetterAux_inj : ∀ m n : ℕ, colLetterAux m = colLetterAux n → m = n := by
  intro m
  induction m using Nat.strong_induction_on with
  | _ m ih =>
    intro n h
    cases m with
    | zero =>
      cases n with
      | zero => rfl
      | succ k =>
        rw [colLetterAux_zero, colLetterAux_succ] at h
        exact absurd h.symm (by simp)
    | succ j =>
      cases n with
      | zero =>
        rw [colLetterAux_zero, colLetterAux_succ] at h
        exact absurd h (by simp)
      | succ k =>
        rw [colLetterAux_succ, colLetterAux_succ] at h
        obtain ⟨h1, h2⟩ := append_singleton_inj h
        have hmod : j % 26 = k % 26 :=
          colChar_inj (j % 26) (Nat.mod_lt _ (by norm_num)) (k % 26)
            (Nat.mod_lt _ (by norm_num)) h2
        have hdiv : j / 26 = k / 26 :=
          ih (j / 26) (Nat.lt_succ_of_le (Nat.div_le_self j 26)) (k / 26) h1
        omega

/-- C7: `_col_num_to_letter` (identical in both spreadsheet clients) realises
the spreadsheet column convention — 1→"A", 26→"Z", 27→"AA", 52→"AZ", 53→"BA",
702→"ZZ", 703→"AAA" — and is injective on positive integers: distinct positive
column numbers always produce distinct letter strings. -/
theorem col_num_to_letter_spec :
    (col_num_to_letter 1 = "A" ∧ col_num_to_letter 26 = "Z" ∧
     col_num_to_letter 27 = "AA" ∧ col_num_to_letter 52 = "AZ" ∧
     col_num_to_letter 53 = "BA" ∧ col_num_to_letter 702 = "ZZ" ∧
     col_num_to_letter 703 = "AAA") ∧
    ∀ m n : ℕ, 0 < m → 0 < n → m ≠ n → col_num_to_letter m ≠ col_num_to_letter n := by
  constructor
  · exact ⟨rfl, rfl, rfl, rfl, rfl, rfl, rfl⟩
  · intro m n _ _ hmn h
    unfold col_num_to_letter at h
    injection h with h'
    exact hmn (colLetterAux_inj m n h')

/-- C7 witness: the theorem applied at the concrete pair 2 ≠ 3. -/
theorem col_num_to_letter_spec_witness : col_num_to_letter 2 ≠ col_num_to_letter 3 :=
  col_num_to_letter_spec.2 2 3 (by decide) (by decide) (by decide)

/-! ### Search-result status classification -/

/-- C5: in `search_people`'s classification of one result container, a
candidate whose effective status-button text (text content, or accessible
label when the text is empty) contains "message" case-insensitively is
skipped; one whose text contains "connect", "follow" or "invite" (and, per the
rule's priority, not "message") is added with status "not_connected"; and a
candidate with no status button at all is added with status "unknown". -/
theorem classify_container_status_spec :
    (∀ (b : StatusButton) (s : String), effective_button_text b = some s → s ≠ "" →
      containsStr (pyLower (pyStrip s)) "message" = true →
      classify_container_status (some b) = none) ∧
    (∀ (b : StatusButton) (s : String), effective_button_text b = some s → s ≠ "" →
      containsStr (pyLower (pyStrip s)) "message" = false →
      (containsStr (pyLower (pyStrip s)) "connect" = true ∨
       containsStr (pyLower (pyStrip s)) "follow" = true ∨
       containsStr (pyLower (pyStrip s)) "invite" = true) →
      classify_container_status (some b) = some "not_connected") ∧
    classify_container_status none = some "unknown" := by
  refine ⟨?_, ?_, rfl⟩
  · intro b s heff hs hmsg
    show classify_effective_text (effective_button_text b) = none
    rw [heff]
    simp [classify_effective_text, hs, hmsg]
  · intro b s heff hs hmsg hor
    show classify_effective_text (effective_button_text b) = some "not_connected"
    rw [heff]
    rcases hor with h | h | h <;> simp [classify_effective_text, hs, hmsg, h]

/-- C5 witness: the theorem applied to a button reading "Connect". -/
theorem classify_container_status_spec_witness :
    classify_container_status (some { text := some "Connect", ariaLabel := none }) =
      some "not_connected" :=
  classify_container_status_spec.2.1 { text := some "Connect", ariaLabel := none }
    "Connect" (by decide) (by decide) (by decide) (Or.inl (by decide))

/-! ### Enhanced spreadsheet schema -/

/-- C2 (amended): the canonical header of the enhanced spreadsheet client is
exactly 36 columns — not 39 — in the fixed source order, and every row
produced by `_profile_to_row`/`add_profile` has exactly one cell per canonical
column. -/
theorem enhanced_columns_spec :
    COLUMNS =
      [ "timestamp", "name", "headline", "location", "profile_url",
        "about", "ai_summary", "popularity_score",
        "current_position", "current_company", "total_experience_years",
        "top_skills", "all_skills_count", "achievements",
        "education", "certifications",
        "email", "website", "blogs", "github", "twitter",
        "followers_count", "connections_count", "mutual_connections",
        "recent_post_snippet", "interests",
        "inmail_note", "ice_breaker_1", "ice_breaker_2", "ice_breaker_3",
        "connect_sent", "connect_sent_date", "connection_accepted",
        "message_sent", "response_received", "notes" ] ∧
    COLUMNS.length = 36 ∧
    ∀ (p : DetailedProfile) (now ai_summary : String) (score : ℚ),
      (profile_to_row p now ai_summary score).length = COLUMNS.length := by
  refine ⟨rfl, rfl, ?_⟩
  intro p now ai_summary score
  rfl

/-- C2 counterexample: the canonical header does not have 39 columns. -/
theorem enhanced_columns_not_39 : COLUMNS.length ≠ 39 := by decide

/-! ### Enhanced `add_profile` always appends (no upsert) -/

/-- C1: evaluating `add_profile` at the failing input of
`tests/test_duplicate_prevention.py` — two profiles sharing the URL
"https://www.linkedin.com/in/test-user", added to a sheet holding only the
header — shows the second call appends a second row for the same URL and
returns a different row number (3 after 2), contradicting the claimed upsert
semantics. -/
theorem add_profile_duplicate_url_appends :
    (add_profile [COLUMNS.map Cell.s] sampleDetailedProfile
        "2025-01-01 00:00:00" "" 0).2 = 2 ∧
    (add_profile
        (add_profile [COLUMNS.map Cell.s] sampleDetailedProfile
          "2025-01-01 00:00:00" "" 0).1
        { sampleDetailedProfile with name := "Updated Version" }
        "2025-01-02 00:00:00" "" 0).2 = 3 ∧
    (add_profile
        (add_profile [COLUMNS.map Cell.s] sampleDetailedProfile
          "2025-01-01 00:00:00" "" 0).1
        { sampleDetailedProfile with name := "Updated Version" }
        "2025-01-02 00:00:00" "" 0).1.length = 3 ∧
    ((add_profile
        (add_profile [COLUMNS.map Cell.s] sampleDetailedProfile
          "2025-01-01 00:00:00" "" 0).1
        { sampleDetailedProfile with name := "Updated Version" }
        "2025-01-02 00:00:00" "" 0).1.getD 1 []).getD 4 (Cell.s "") =
      Cell.s "https://www.linkedin.com/in/test-user" ∧
    ((add_profile
        (add_profile [COLUMNS.map Cell.s] sampleDetailedProfile
          "2025-01-01 00:00:00" "" 0).1
        { sampleDetailedProfile with name := "Updated Version" }
        "2025-01-02 00:00:00" "" 0).1.getD 2 []).getD 4 (Cell.s "") =
      Cell.s "https://www.linkedin.com/in/test-user" := by
  exact ⟨rfl, rfl, rfl, rfl, rfl⟩

/-! ### InMail note post-processing -/

/-- C6 (amended): the note returned by `generate_inmail_note` is at most 300
characters; when the whitespace-trimmed, newline-collapsed model output
exceeds 300 characters the result is exactly 300 characters ending in "..."
(297 kept characters plus the ellipsis); otherwise the result is exactly that
trimmed output with interior newlines replaced by spaces. -/
theorem inmail_note_clip_spec : ∀ text : List Char,
    (inmail_note_clip text).length ≤ 300 ∧
    (300 < (inmail_message text).length →
      (inmail_note_clip text).length = 300 ∧
      (inmail_note_clip text).drop 297 = ['.', '.', '.'] ∧
      inmail_note_clip text = (inmail_message text).take 297 ++ ['.', '.', '.']) ∧
    ((inmail_message text).length ≤ 300 → inmail_note_clip text = inmail_message text) := by
  intro text
  by_cases h : 300 < (inmail_message text).length
  · have htake : ((inmail_message text).take 297).length = 297 := by
      rw [List.length_take]
      omega
    refine ⟨?_, fun _ => ⟨?_, ?_, ?_⟩, fun hle => absurd h (by omega)⟩
    · simp only [inmail_note_clip, if_pos h]
      rw [List.length_append, htake]
      norm_num
    · simp only [inmail_note_clip, if_pos h]
      rw [List.length_append, htake]
      rfl
    · simp only [inmail_note_clip, if_pos h]
      have hdrop := List.drop_left ((inmail_message text).take 297) ['.', '.', '.']
      rw [htake] at hdrop
      exact hdrop
    · simp only [inmail_note_clip, if_pos h]
  · push_neg at h
    refine ⟨?_, fun hgt => absurd hgt (by omega), fun _ => ?_⟩
    · simp only [inmail_note_clip, if_neg (by omega : ¬ 300 < (inmail_message text).length)]
      exact h
    · simp only [inmail_note_clip, if_neg (by omega : ¬ 300 < (inmail_message text).length)]

/-- C6 witness: the theorem applied to the two-character output "hi". -/
theorem inmail_note_clip_spec_witness :
    inmail_note_clip ['h', 'i'] = inmail_message ['h', 'i'] :=
  (inmail_note_clip_spec ['h', 'i']).2.2 (by decide)

set_option maxRecDepth 10000 in
/-- C6 counterexample to the claim as stated: for the 301-character model
output of 300 'a's followed by a space, the claim demands a 300-character
result ending in "...", but the code strips the space first and returns the
300 'a's unmodified; and for the short output "a\nb" the claim demands the
trimmed output "a\nb" back, but the code returns "a b". -/
theorem inmail_note_clip_cex :
    300 < (List.replicate 300 'a' ++ [' ']).length ∧
    inmail_note_clip (List.replicate 300 'a' ++ [' ']) = List.replicate 300 'a' ∧
    (List.replicate 300 'a').drop 297 ≠ ['.', '.', '.'] ∧
    (['a', '\n', 'b'] : List Char).length ≤ 300 ∧
    inmail_note_clip ['a', '\n', 'b'] = ['a', ' ', 'b'] ∧
    pyStripL ['a', '\n', 'b'] = ['a', '\n', 'b'] ∧
    (['a', ' ', 'b'] : List Char) ≠ ['a', '\n', 'b'] := by
  refine ⟨by decide, ?_, by decide, by decide, by decide, by decide, by decide⟩
  decide

/-! ### Orchestrator startup validation -/

/-- C9: whenever the LinkedIn email or password is missing or the
search-keyword list is empty, `run` raises one of its two descriptive startup
errors before any spreadsheet client, AI client or browser session step is
reached (the emitted event trace is empty), and `main` exits non-zero. -/
theorem run_startup_validation : ∀ s : Settings,
    (s.linkedin_email = "" ∨ s.linkedin_password = "" ∨ s.search_keywords = []) →
    (run_startup s).1 = [] ∧
    ((run_startup s).2 =
        some "Set LINKEDIN_EMAIL and LINKEDIN_PASSWORD environment variables." ∨
     (run_startup s).2 = some "Set SEARCH_KEYWORDS env var (comma-separated).") ∧
    main_exit_code s = 1 := by
  intro s hbad
  by_cases hcred : s.linkedin_email = "" ∨ s.linkedin_password = ""
  · have h1 : run_startup s =
        ([], some "Set LINKEDIN_EMAIL and LINKEDIN_PASSWORD environment variables.") := by
      simp only [run_startup, if_pos hcred]
    refine ⟨by rw [h1], Or.inl (by rw [h1]), ?_⟩
    simp only [main_exit_code, h1]
  · have hkw : s.search_keywords = [] := by tauto
    have h1 : run_startup s = ([], some "Set SEARCH_KEYWORDS env var (comma-separated).") := by
      simp only [run_startup, if_neg hcred, if_pos hkw]
    refine ⟨by rw [h1], Or.inr (by rw [h1]), ?_⟩
    simp only [main_exit_code, h1]

/-- C9 witness: the theorem applied to settings with an empty email. -/
theorem run_startup_validation_witness :
    main_exit_code
      { linkedin_email := "", linkedin_password := "pw",
        search_keywords := ["cto"], gsheet_name := none, gsheet_id := none } = 1 :=
  (run_startup_validation _ (Or.inl rfl)).2.2

/-! ### GUI bridge `run_automation` -/

/-- C10 (amended): provided the call is not rejected by the already-running
guard, `run_automation` propagates no exception: whatever the try-body does,
the call returns a plain state whose `is_running` flag is `False`, and when
the body raised with message `e` the log callback received
`("Automation error: " ++ e, "ERROR")` and the progress callback received the
matching `("Error: " ++ e, 0)`. -/
theorem run_automation_contains_errors :
    ∀ (st : IntegState) (body : IntegState → IntegState × Option String),
      st.is_running = false →
      (run_automation st body).is_running = false ∧
      (∀ (stB : IntegState) (e : String),
        body (update_progress { st with is_running := true }
            "Starting LinkedIn automation..." 0) = (stB, some e) →
        ("Automation error: " ++ e, "ERROR") ∈ (run_automation st body).logs ∧
        ("Error: " ++ e, (0 : ℚ)) ∈ (run_automation st body).progress) := by
  intro st body hst
  have hguard : ¬ st.is_running = true := by simp [hst]
  constructor
  · simp only [run_automation, if_neg hguard]
  · intro stB e hbody
    simp only [run_automation, if_neg hguard, hbody]
    constructor
    · simp [log_message, update_progress]
    · simp [log_message, update_progress]

/-- C10 witness: the theorem applied to an idle state and a body raising
"boom". -/
theorem run_automation_contains_errors_witness :
    ("Automation error: boom", "ERROR") ∈
      (run_automation { is_running := false, logs := [], progress := [] }
        (fun s => (s, some "boom"))).logs :=
  ((run_automation_contains_errors
      { is_running := false, logs := [], progress := [] }
      (fun s => (s, some "boom")) rfl).2 _ "boom" rfl).1

/-- C10 counterexample to the claim as stated: when `run_automation` is
entered while `is_running` is already `True`, the call returns with the flag
still `True` — the claim's "the is_running flag is False when the call
returns, regardless of success or failure" fails on the guard path. -/
theorem run_automation_busy_cex :
    (run_automation { is_running := true, logs := [], progress := [] }
      (fun s => (s, none))).is_running = true := rfl

/-! ### Rounding lemmas -/

theorem bankersRound_nonneg {x : ℚ} (hx : 0 ≤ x) : 0 ≤ bankersRound x := by
  have hn : (0 : ℤ) ≤ ⌊x⌋ := Int.floor_nonneg.mpr hx
  simp only [bankersRound]
  split_ifs <;> omega

theorem bankersRound_le {x : ℚ} {B : ℤ} (h : x ≤ B) : bankersRound x ≤ B := by
  have hfloor : ⌊x⌋ ≤ B := by
    have h2 : ⌊x⌋ ≤ ⌊(B : ℚ)⌋ := Int.floor_le_floor h
    simp at h2
    exact h2
  simp only [bankersRound]
  split_ifs with h1 h2 h3
  · exact hfloor
  · have hlt : ⌊x⌋ < B := by
      have h' : (⌊x⌋ : ℚ) < (B : ℚ) := by linarith
      exact_mod_cast h'
    omega
  · exact hfloor
  · have hge : 1 / 2 ≤ x - ⌊x⌋ := not_lt.mp h1
    have hlt : ⌊x⌋ < B := by
      have h' : (⌊x⌋ : ℚ) < (B : ℚ) := by linarith
      exact_mod_cast h'
    omega

theorem round2_nonneg {x : ℚ} (hx : 0 ≤ x) : 0 ≤ round2 x := by
  unfold round2
  have hb := bankersRound_nonneg (x := x * 100) (by positivity)
  have : (0 : ℚ) ≤ (bankersRound (x * 100) : ℚ) := by exact_mod_cast hb
  positivity

theorem round2_le_100 {x : ℚ} (hx : x ≤ 100) : round2 x ≤ 100 := by
  unfold round2
  have hb : bankersRound (x * 100) ≤ (10000 : ℤ) := bankersRound_le (by push_cast; linarith)
  rw [div_le_iff₀ (by norm_num : (0 : ℚ) < 100)]
  calc ((bankersRound (x * 100) : ℤ) : ℚ) ≤ ((10000 : ℤ) : ℚ) := by exact_mod_cast hb
    _ = 100 * 100 := by norm_num

theorem bankersRound_add_1000 (x : ℚ) : bankersRound (x + 1000) = bankersRound x + 1000 := by
  simp only [bankersRound]
  have hfl : ⌊x + (1000 : ℚ)⌋ = ⌊x⌋ + 1000 := by
    exact_mod_cast Int.floor_add_int x (1000 : ℤ)
  rw [hfl]
  have hr : x + 1000 - ((⌊x⌋ + 1000 : ℤ) : ℚ) = x - ⌊x⌋ := by push_cast; ring
  rw [hr]
  split_ifs <;> omega

theorem round2_add_ten (x : ℚ) : round2 (x + 10) = round2 x + 10 := by
  unfold round2
  have h : (x + 10) * 100 = x * 100 + 1000 := by ring
  rw [h, bankersRound_add_1000]
  push_cast
  ring

theorem round2_zero : round2 0 = 0 := by
  rw [round2]
  norm_num [bankersRound]

/-! ### Scoring lemmas -/

theorem follower_contribution_eq (o : Option ℕ) :
    follower_contribution o =
      match o with
      | none => (0 : ℚ)
      | some f => min 30 ((f : ℚ) / 1000 * 5) := by
  cases o with
  | none => rfl
  | some f =>
    by_cases hf : f = 0
    · subst hf
      simp [follower_contribution]
    · simp [follower_contribution, hf]

theorem follower_contribution_nonneg (o : Option ℕ) : 0 ≤ follower_contribution o := by
  cases o with
  | none => simp [follower_contribution]
  | some f =>
    by_cases hf : f = 0
    · simp [follower_contribution, hf]
    · simp only [follower_contribution, if_neg hf]
      exact le_min (by norm_num) (by positivity)

theorem follower_contribution_le_30 (o : Option ℕ) : follower_contribution o ≤ 30 := by
  cases o with
  | none => simp [follower_contribution]
  | some f =>
    by_cases hf : f = 0
    · simp [follower_contribution, hf]
    · simp only [follower_contribution, if_neg hf]
      exact min_le_left _ _

theorem keyword_contribution_nonneg (p : Profile) (kws : List String) :
    0 ≤ keyword_contribution p kws := by
  unfold keyword_contribution
  positivity

theorem skills_contribution_nonneg (p : Profile) : 0 ≤ skills_contribution p := by
  unfold skills_contribution
  exact le_min (by norm_num) (by positivity)

theorem experience_contribution_nonneg (p : Profile) : 0 ≤ experience_contribution p := by
  unfold experience_contribution
  exact le_min (by norm_num) (by positivity)

/-- C4 (amended): `compute_popularity_score` returns
`round(min(F + K + S + E, 100.0), 2)` with `F = min(30, followers/1000*5)`
when a follower count is present else 0, `K` = 10 per matched keyword, `S` and
`E` the capped skill and experience terms; the result lies in [0, 100], the
follower/skill/experience sub-terms respect their caps (30/20/20), and an
all-empty profile scores exactly 0.0 for every keyword list whose keywords
are nonempty strings. -/
theorem compute_popularity_score_spec :
    ∀ (p : Profile) (kws : List String),
      compute_popularity_score p kws =
        round2 (min
          ((match p.followers_count with
            | none => (0 : ℚ)
            | some f => min 30 ((f : ℚ) / 1000 * 5))
            + keyword_contribution p kws + skills_contribution p
            + experience_contribution p) 100) ∧
      0 ≤ compute_popularity_score p kws ∧
      compute_popularity_score p kws ≤ 100 ∧
      follower_contribution p.followers_count ≤ 30 ∧
      skills_contribution p ≤ 20 ∧
      experience_contribution p ≤ 20 ∧
      ((∀ kw ∈ kws, kw ≠ "") → compute_popularity_score emptyProfile kws = 0) := by
  intro p kws
  refine ⟨?_, ?_, ?_, follower_contribution_le_30 _, min_le_left _ _, min_le_left _ _, ?_⟩
  · unfold compute_popularity_score
    rw [follower_contribution_eq]
  · unfold compute_popularity_score
    apply round2_nonneg
    refine le_min ?_ (by norm_num)
    have h1 := follower_contribution_nonneg p.followers_count
    have h2 := keyword_contribution_nonneg p kws
    have h3 := skills_contribution_nonneg p
    have h4 := experience_contribution_nonneg p
    linarith
  · unfold compute_popularity_score
    exact round2_le_100 (min_le_right _ _)
  · intro hempty
    have hK : keyword_contribution emptyProfile kws = 0 := by
      unfold keyword_contribution
      have hnil : kws.filter
          (fun kw => containsStr (pyLower (score_text_blob emptyProfile)) (pyLower kw)) = [] := by
        rw [List.filter_eq_nil_iff]
        intro kw hkw
        have hne : kw ≠ "" := hempty kw hkw
        have hdata : kw.data ≠ [] := by
          intro hD
          apply hne
          cases kw
          simp_all
        have hred : containsStr (pyLower (score_text_blob emptyProfile)) (pyLower kw)
            = (kw.data.map Char.toLower == []) := rfl
        rw [hred]
        simp [hdata]
      rw [hnil]
      simp
    unfold compute_popularity_score
    rw [hK]
    have hmin : min
        (follower_contribution emptyProfile.followers_count + 0
          + skills_contribution emptyProfile + experience_contribution emptyProfile) 100
        = 0 := by
      norm_num [follower_contribution, skills_contribution, experience_contribution,
        emptyProfile]
    rw [hmin]
    exact round2_zero

/-- C4 witness: the theorem applied at the empty profile and the one-element
nonempty-keyword list ["founder"]. -/
theorem compute_popularity_score_spec_witness :
    compute_popularity_score emptyProfile ["founder"] = 0 :=
  (compute_popularity_score_spec emptyProfile ["founder"]).2.2.2.2.2.2 (by decide)

/-- C4 counterexample to the claim as stated: with the seniority-keyword list
[""] — the empty string is a substring of every text — the all-empty profile
scores 10.0, not 0.0, so "an all-empty profile scores exactly 0.0" fails under
the claim's universal quantifier over keyword lists. -/
theorem compute_popularity_score_cex :
    compute_popularity_score emptyProfile [""] = 10 ∧ (10 : ℚ) ≠ 0 := by
  constructor
  · unfold compute_popularity_score
    have hK : keyword_contribution emptyProfile [""] = 10 := by
      unfold keyword_contribution
      have hfil : (([""] : List String).filter
          (fun kw => containsStr (pyLower (score_text_blob emptyProfile)) (pyLower kw)))
          = [""] := rfl
      rw [hfil]
      norm_num
    rw [hK]
    have hmin : min
        (follower_contribution emptyProfile.followers_count + 10
          + skills_contribution emptyProfile + experience_contribution emptyProfile) 100
        = 0 + 10 := by
      norm_num [follower_contribution, skills_contribution, experience_contribution,
        emptyProfile]
    rw [hmin, round2_add_ten, round2_zero]
    norm_num
  · norm_num

/-- C8: if the concatenated headline-and-about text of a profile contains a
keyword case-insensitively, scoring with that one-keyword list is strictly
greater than scoring the same profile with the empty keyword list. -/
theorem keyword_strictly_increases_score :
    ∀ (p : Profile) (kw : String),
      containsStr (pyLower (score_text_blob p)) (pyLower kw) = true →
      compute_popularity_score p [] < compute_popularity_score p [kw] := by
  intro p kw h
  unfold compute_popularity_score
  have hK0 : keyword_contribution p [] = 0 := by simp [keyword_contribution]
  have hK1 : keyword_contribution p [kw] = 10 := by
    unfold keyword_contribution
    simp [h]
  rw [hK0, hK1]
  have hFb := follower_contribution_le_30 p.followers_count
  have hSb : skills_contribution p ≤ 20 := min_le_left _ _
  have hEb : experience_contribution p ≤ 20 := min_le_left _ _
  have h1 : min (follower_contribution p.followers_count + 0 + skills_contribution p
      + experience_contribution p) 100
      = follower_contribution p.followers_count + 0 + skills_contribution p
        + experience_contribution p := min_eq_left (by linarith)
  have h2 : min (follower_contribution p.followers_count + 10 + skills_contribution p
      + experience_contribution p) 100
      = follower_contribution p.followers_count + 10 + skills_contribution p
        + experience_contribution p := min_eq_left (by linarith)
  rw [h1, h2]
  have h3 : follower_contribution p.followers_count + 10 + skills_contribution p
      + experience_contribution p
      = (follower_contribution p.followers_count + 0 + skills_contribution p
        + experience_contribution p) + 10 := by ring
  rw [h3, round2_add_ten]
  linarith

/-- C8 witness: the theorem applied to a profile whose headline is "Founder"
and the keyword "founder". -/
theorem keyword_strictly_increases_score_witness :
    compute_popularity_score { emptyProfile with headline := "Founder" } [] <
      compute_popularity_score { emptyProfile with headline := "Founder" } ["founder"] :=
  keyword_strictly_increases_score { emptyProfile with headline := "Founder" } "founder"
    (by decide)

/-! ### Worksheet update lemmas -/

theorem setCell_length (ws : List (List Cell)) (row col : ℕ) (v : Cell) :
    (setCell ws row col v).length = ws.length := by
  unfold setCell
  cases h : ws.get? (row - 1) with
  | none => rfl
  | some r => simp

theorem foldl_header_updates_length (headers : List Cell) (row : ℕ) :
    ∀ (ups : List (String × Cell)) (acc : List (List Cell)),
      (ups.foldl (fun acc cu =>
        match headerIdx headers cu.1 with
        | some i => setCell acc row (i + 1) cu.2
        | none => acc) acc).length = acc.length := by
  intro ups
  induction ups with
  | nil => intro acc; rfl
  | cons u t ih =>
    intro acc
    simp only [List.foldl_cons]
    rw [ih]
    cases headerIdx headers u.1 with
    | none => rfl
    | some i => exact setCell_length acc row (i + 1) u.2

theorem update_row_length (ws : List (List Cell)) (row : ℕ) (ups : List (String × Cell)) :
    (update_row ws row ups).length = ws.length := by
  unfold update_row
  exact foldl_header_updates_length (ws.headD []) row ups ws

theorem update_cell_sets (ws : List (List Cell)) (row : ℕ) (name : String) (v : Cell) (j : ℕ)
    (hj : headerIdx (ws.headD []) name = some j)
    (hrow : row - 1 < ws.length)
    (hcol : j < (ws.getD (row - 1) []).length) :
    ((update_cell ws row name v).getD (row - 1) []).getD j (Cell.s "") = v := by
  unfold update_cell update_row
  simp only [List.foldl_cons, List.foldl_nil, hj]
  unfold setCell
  have hget : ws.get? (row - 1) = some (ws.getD (row - 1) []) := by
    rw [List.get?_eq_getElem?, List.getElem?_eq_getElem hrow, List.getD_eq_getElem?_getD,
      List.getElem?_eq_getElem hrow]
    rfl
  rw [hget]
  simp only [Nat.add_sub_cancel]
  rw [List.getD_eq_getElem?_getD (ws.set (row - 1) ((ws.getD (row - 1) []).set j v))
      (row - 1) ([] : List Cell),
    List.getElem?_set_self hrow]
  simp only [Option.getD_some]
  rw [List.getD_eq_getElem?_getD, List.getElem?_set_self hcol]
  rfl

/-! ### Orchestrator first-pass lemmas -/

theorem first_pass_step_found (now : String) (ws : List (List Cell))
    (m : List (String × ℕ)) (r : SearchResult) (row : ℕ)
    (h : find_row_by_url ws r.profile_url = some row) :
    first_pass_step now (ws, m) r =
      (update_cell ws row "Last Updated" (Cell.s now), m ++ [(r.profile_url, row)]) := by
  unfold first_pass_step
  rw [h]

theorem first_pass_step_not_found (now : String) (ws : List (List Cell))
    (m : List (String × ℕ)) (r : SearchResult)
    (h : find_row_by_url ws r.profile_url = none) :
    first_pass_step now (ws, m) r =
      (ws ++ [initial_row_data r now], m ++ [(r.profile_url, ws.length + 1)]) := by
  unfold first_pass_step
  rw [h]
  simp [append_lead]

theorem first_pass_step_mapping (now : String)
    (st : List (List Cell) × List (String × ℕ)) (r : SearchResult) :
    ∃ x, (first_pass_step now st r).2 = st.2 ++ [(r.profile_url, x)] := by
  unfold first_pass_step
  cases h : find_row_by_url st.1 r.profile_url with
  | some row => exact ⟨row, rfl⟩
  | none => exact ⟨(st.1 ++ [initial_row_data r now]).length, rfl⟩

theorem first_pass_fold_mapping_mono (now : String) :
    ∀ (results : List SearchResult) (st : List (List Cell) × List (String × ℕ)),
      ∃ suffix, (results.foldl (first_pass_step now) st).2 = st.2 ++ suffix := by
  intro results
  induction results with
  | nil => intro st; exact ⟨[], by simp⟩
  | cons a t ih =>
    intro st
    obtain ⟨x, hx⟩ := first_pass_step_mapping now st a
    obtain ⟨suf, hsuf⟩ := ih (first_pass_step now st a)
    refine ⟨[(a.profile_url, x)] ++ suf, ?_⟩
    simp only [List.foldl_cons]
    rw [hsuf, hx]
    simp

theorem lookup_append_isSome (k : String) (l1 l2 : List (String × ℕ)) :
    ((l1 ++ l2).lookup k).isSome = ((l1.lookup k).isSome || (l2.lookup k).isSome) := by
  induction l1 with
  | nil => simp
  | cons a t ih =>
    rcases a with ⟨k', v⟩
    by_cases h : k == k'
    · simp [List.lookup, h]
    · simp only [List.cons_append, List.lookup, h]
      exact ih

theorem first_pass_covers (now : String) :
    ∀ (results : List SearchResult) (st : List (List Cell) × List (String × ℕ))
      (r : SearchResult), r ∈ results →
      (((results.foldl (first_pass_step now) st).2).lookup r.profile_url).isSome = true := by
  intro results
  induction results with
  | nil => intro st r h; cases h
  | cons a t ih =>
    intro st r hmem
    simp only [List.foldl_cons]
    rcases List.mem_cons.mp hmem with heq | hmem2
    · subst heq
      obtain ⟨x, hx⟩ := first_pass_step_mapping now st r
      obtain ⟨suf, hsuf⟩ := first_pass_fold_mapping_mono now t (first_pass_step now st r)
      rw [hsuf, hx, lookup_append_isSome, lookup_append_isSome]
      simp [List.lookup]
    · exact ih (first_pass_step now st a) r hmem2

/-- C3: with a spreadsheet client configured, the orchestrator's first pass
handles every search result: when the URL lookup finds a row, the step only
stamps that row's "Last Updated" cell (no new append, row count unchanged);
when it does not, the step appends `initial_row_data`, whose position cell is
`parse_position` of the headline (split on " at ", then " | ", then the first
comma segment, in that order); and the pass completes for every search result,
recording a row number for each result's URL in the row mapping. -/
theorem orchestrator_first_pass_spec :
    (∀ (ws : List (List Cell)) (m : List (String × ℕ)) (r : SearchResult)
        (now : String) (row : ℕ),
      find_row_by_url ws r.profile_url = some row →
      (first_pass_step now (ws, m) r).1 = update_cell ws row "Last Updated" (Cell.s now) ∧
      (first_pass_step now (ws, m) r).1.length = ws.length ∧
      (first_pass_step now (ws, m) r).2 = m ++ [(r.profile_url, row)]) ∧
    (∀ (ws : List (List Cell)) (row : ℕ) (now : String) (j : ℕ),
      headerIdx (ws.headD []) "Last Updated" = some j →
      row - 1 < ws.length →
      j < (ws.getD (row - 1) []).length →
      ((update_cell ws row "Last Updated" (Cell.s now)).getD (row - 1) []).getD j (Cell.s "")
        = Cell.s now) ∧
    (∀ (ws : List (List Cell)) (m : List (String × ℕ)) (r : SearchResult) (now : String),
      find_row_by_url ws r.profile_url = none →
      (first_pass_step now (ws, m) r).1 = ws ++ [initial_row_data r now] ∧
      (initial_row_data r now).getD 1 (Cell.s "") = Cell.s (parse_position r.headline) ∧
      (first_pass_step now (ws, m) r).2 = m ++ [(r.profile_url, ws.length + 1)]) ∧
    (∀ (h : String), h ≠ "" → containsStr h " at " = true →
      parse_position (some h) = (h.splitOn " at ").headD "") ∧
    (∀ (ws : List (List Cell)) (results : List SearchResult) (now : String)
        (r : SearchResult), r ∈ results →
      (((first_pass ws results now).2).lookup r.profile_url).isSome = true) := by
  refine ⟨?_, ?_, ?_, ?_, ?_⟩
  · intro ws m r now row h
    rw [first_pass_step_found now ws m r row h]
    refine ⟨rfl, ?_, rfl⟩
    exact update_row_length ws row [("Last Updated", Cell.s now)]
  · intro ws row now j hj hrow hcol
    exact update_cell_sets ws row "Last Updated" (Cell.s now) j hj hrow hcol
  · intro ws m r now h
    rw [first_pass_step_not_found now ws m r h]
    exact ⟨rfl, rfl, rfl⟩
  · intro h hne hat
    simp [parse_position, hne, hat]
  · intro ws results now r hmem
    exact first_pass_covers now results (ws, []) r hmem

/-- C3 witness: the theorem's completion clause applied to one concrete
search result and an empty sheet. -/
theorem orchestrator_first_pass_spec_witness :
    (((first_pass [] [demoSearchResult] "2025-06-01 00:00:00").2).lookup
      demoSearchResult.profile_url).isSome = true :=
  orchestrator_first_pass_spec.2.2.2.2 [] [demoSearchResult] "2025-06-01 00:00:00"
    demoSearchResult (List.mem_singleton.mpr rfl)
